import Mathlib

/-!
Shallow embedding of `calculate_retirement_plan` from
`src/retirement_planner.py` and proofs about it.

The Python function takes six scalar arguments, derives a monthly growth
rate from the annual return, allocates two numpy arrays of length
`total_months + 1`, seeds index 0, and fills indices `1 .. total_months`
by a two-phase recurrence.  Python floats are modelled by real numbers;
the integer year counts are modelled by `ℤ` (the function itself performs
no validation, so negative values reach the arithmetic).  `np.zeros(n)`
raises for `n < 0` and the subsequent `savings[0] = ...` raises for
`n = 0`, so the embedding returns `none` exactly when `total_months < 0`.
-/

/-- Argument bundle of `calculate_retirement_plan`, in the order of the
Python signature (lines 7-9 of `src/retirement_planner.py`). -/
structure PlanInputs where
  monthly_expense_retired : ℝ
  years_after_retirement : ℤ
  years_to_retirement : ℤ
  current_savings : ℝ
  monthly_contribution : ℝ
  expected_return : ℝ

/-- Line 11: `monthly_return = (1 + expected_return) ** (1/12) - 1`. -/
noncomputable def monthly_return (expected_return : ℝ) : ℝ :=
  (1 + expected_return) ^ ((1 : ℝ) / 12) - 1

/-- Line 14: `total_months = (years_to_retirement + years_after_retirement) * 12`. -/
def total_months (inp : PlanInputs) : ℤ :=
  (inp.years_to_retirement + inp.years_after_retirement) * 12

/-- Line 15: `months_to_retirement = years_to_retirement * 12`. -/
def months_to_retirement (inp : PlanInputs) : ℤ :=
  inp.years_to_retirement * 12

/-- The `savings` array of lines 18-29: entry 0 is `current_savings`
(line 20), and entry `i` for `i ≥ 1` is produced by the loop of lines
23-31 from entry `i - 1`. -/
noncomputable def savings (inp : PlanInputs) : ℕ → ℝ
  | 0 => inp.current_savings
  | i + 1 =>
      if ((i : ℤ) + 1) ≤ months_to_retirement inp then
        savings inp i * (1 + monthly_return inp.expected_return) + inp.monthly_contribution
      else
        savings inp i * (1 + monthly_return inp.expected_return) - inp.monthly_expense_retired

/-- The `monthly_cashflow` array of lines 19-31: entry 0 keeps the
`np.zeros` value 0, and entry `i` for `i ≥ 1` is set by the loop. -/
def monthly_cashflow (inp : PlanInputs) : ℕ → ℝ
  | 0 => 0
  | i + 1 =>
      if ((i : ℤ) + 1) ≤ months_to_retirement inp then inp.monthly_contribution
      else -inp.monthly_expense_retired

/-- The whole function (lines 7-33): allocation fails when
`total_months + 1 ≤ 0` (negative `np.zeros` size, or index 0 assignment
on an empty array), otherwise the two filled arrays are returned. -/
noncomputable def calculate_retirement_plan (inp : PlanInputs) :
    Option (List ℝ × List ℝ) :=
  if total_months inp < 0 then none
  else
    some ((List.range ((total_months inp).toNat + 1)).map (savings inp),
          (List.range ((total_months inp).toNat + 1)).map (monthly_cashflow inp))

/-- Concrete inputs used to instantiate the theorems below. -/
def W3 : PlanInputs := ⟨5000, 30, 25, 100000, 1000, 0.07⟩

def W7 : PlanInputs := ⟨5000, 0, 0, 777, 1000, 0.07⟩

def W9 : PlanInputs := ⟨100, 1, 1, 50, 10, 0⟩

def W1 : PlanInputs := ⟨50, 0, 1, 1000, 100, 0⟩

def W2 : PlanInputs := ⟨0, 0, 1, 1000, 0, 0.12⟩

def W10 : PlanInputs := ⟨0, 1, 1, 500, 0, 0.1⟩

def W4 : PlanInputs := ⟨5000, 30, -1, 100000, 1000, 0.07⟩

def W5 : PlanInputs := ⟨50, 1, 0, 0, 100, 0⟩

def V5 : PlanInputs := ⟨50, 1, 1, 0, 100, 0⟩

def W6 : PlanInputs := ⟨0, 1, 0, 5, 0, 0⟩

def V6 : PlanInputs := ⟨0, 1, 0, 5, 100, 0⟩

def W6w : PlanInputs := ⟨0, 1, 1, 0, 0, 0⟩

def V6w : PlanInputs := ⟨0, 1, 1, 0, 100, 0⟩

theorem calc_eq (inp : PlanInputs) (h : 0 ≤ total_months inp) :
    calculate_retirement_plan inp =
      some ((List.range ((total_months inp).toNat + 1)).map (savings inp),
            (List.range ((total_months inp).toNat + 1)).map (monthly_cashflow inp)) := by
  simp [calculate_retirement_plan, not_lt.mpr h]

theorem calc_some (inp : PlanInputs) {bal cf : List ℝ}
    (h : calculate_retirement_plan inp = some (bal, cf)) :
    0 ≤ total_months inp ∧
      bal = (List.range ((total_months inp).toNat + 1)).map (savings inp) ∧
      cf = (List.range ((total_months inp).toNat + 1)).map (monthly_cashflow inp) := by
  by_cases htm : total_months inp < 0
  · simp [calculate_retirement_plan, htm] at h
  · rw [calc_eq inp (not_lt.mp htm)] at h
    obtain ⟨h1, h2⟩ := Prod.mk.injEq _ _ _ _ ▸ Option.some.inj h
    exact ⟨not_lt.mp htm, h1.symm, h2.symm⟩

theorem map_range_get (f : ℕ → ℝ) (n i : ℕ) (hi : i < n) :
    ((List.range n).map f).get? i = some (f i) := by
  rw [List.get?_map, List.get?_range hi]
  rfl

/-- Claim C3: for every valid input the two returned sequences have equal
length `totalMonths + 1`, and index 0 is seeded with `currentSavings`
and `0`. -/
theorem C3_length_and_seed (inp : PlanInputs)
    (hytr : 0 ≤ inp.years_to_retirement) (hyar : 0 ≤ inp.years_after_retirement)
    (hr : -1 < inp.expected_return) (bal cf : List ℝ)
    (h : calculate_retirement_plan inp = some (bal, cf)) :
    (bal.length : ℤ) = total_months inp + 1 ∧ cf.length = bal.length ∧
      bal.get? 0 = some inp.current_savings ∧ cf.get? 0 = some 0 := by
  obtain ⟨htm, hbal, hcf⟩ := calc_some inp h
  subst hbal hcf
  refine ⟨?_, by simp, ?_, ?_⟩
  · simp only [List.length_map, List.length_range]
    omega
  · rw [map_range_get _ _ 0 (Nat.succ_pos _)]
    simp [savings]
  · rw [map_range_get _ _ 0 (Nat.succ_pos _)]
    simp [monthly_cashflow]

theorem C3_witness :
    (((List.range ((total_months W3).toNat + 1)).map (savings W3)).length : ℤ) =
        total_months W3 + 1 ∧
      ((List.range ((total_months W3).toNat + 1)).map (monthly_cashflow W3)).length =
        ((List.range ((total_months W3).toNat + 1)).map (savings W3)).length ∧
      ((List.range ((total_months W3).toNat + 1)).map (savings W3)).get? 0 =
        some W3.current_savings ∧
      ((List.range ((total_months W3).toNat + 1)).map (monthly_cashflow W3)).get? 0 =
        some 0 :=
  C3_length_and_seed W3 (by norm_num [W3]) (by norm_num [W3]) (by norm_num [W3])
    _ _ (calc_eq W3 (by norm_num [total_months, W3]))

/-- Claim C7: with both horizons zero the engine returns the
single-element sequences `[currentSavings]` and `[0]`. -/
theorem C7_zero_horizon (inp : PlanInputs)
    (h1 : inp.years_to_retirement = 0) (h2 : inp.years_after_retirement = 0) :
    calculate_retirement_plan inp = some ([inp.current_savings], [0]) := by
  have htm : total_months inp = 0 := by simp [total_months, h1, h2]
  rw [calc_eq inp (le_of_eq htm.symm)]
  have hr1 : List.range 1 = [0] := rfl
  simp [htm, hr1, savings, monthly_cashflow]

theorem C7_witness :
    calculate_retirement_plan W7 = some ([(777 : ℝ)], [0]) :=
  C7_zero_horizon W7 rfl rfl

/-- Claim C9: the engine is deterministic — two invocations on the same
input produce the same pair of sequences (the embedding is a pure
function, so side effects, I/O and randomness are absent by
construction). -/
theorem C9_determinism (inp : PlanInputs) (bal1 cf1 bal2 cf2 : List ℝ)
    (h1 : calculate_retirement_plan inp = some (bal1, cf1))
    (h2 : calculate_retirement_plan inp = some (bal2, cf2)) :
    bal1 = bal2 ∧ cf1 = cf2 := by
  rw [h1] at h2
  obtain ⟨ha, hb⟩ := Prod.mk.injEq _ _ _ _ ▸ Option.some.inj h2
  exact ⟨ha, hb⟩

theorem C9_witness :
    (List.range ((total_months W9).toNat + 1)).map (savings W9) =
        (List.range ((total_months W9).toNat + 1)).map (savings W9) ∧
      (List.range ((total_months W9).toNat + 1)).map (monthly_cashflow W9) =
        (List.range ((total_months W9).toNat + 1)).map (monthly_cashflow W9) :=
  C9_determinism W9 _ _ _ _ (calc_eq W9 (by norm_num [total_months, W9]))
    (calc_eq W9 (by norm_num [total_months, W9]))

/-- Claim C1: for every valid input and month index `1 ≤ i ≤ totalMonths`
the produced balance and cash-flow entries satisfy the two-phase
recurrence exactly, with no clamping of negative balances. -/
theorem C1_recurrence (inp : PlanInputs)
    (hytr : 0 ≤ inp.years_to_retirement) (hyar : 0 ≤ inp.years_after_retirement)
    (hr : -1 < inp.expected_return) (i : ℕ) (hi1 : 1 ≤ i)
    (hi2 : (i : ℤ) ≤ total_months inp) (bal cf : List ℝ) (b : ℝ)
    (hcalc : calculate_retirement_plan inp = some (bal, cf))
    (hb : bal.get? (i - 1) = some b) :
    bal.get? i = some (if (i : ℤ) ≤ months_to_retirement inp
        then b * (1 + monthly_return inp.expected_return) + inp.monthly_contribution
        else b * (1 + monthly_return inp.expected_return) - inp.monthly_expense_retired) ∧
      cf.get? i = some (if (i : ℤ) ≤ months_to_retirement inp
        then inp.monthly_contribution else -inp.monthly_expense_retired) := by
  obtain ⟨htm, hbal, hcf⟩ := calc_some inp hcalc
  subst hbal hcf
  obtain ⟨j, rfl⟩ : ∃ j, i = j + 1 := ⟨i - 1, by omega⟩
  have hin : j + 1 < (total_months inp).toNat + 1 := by omega
  have hjn : j < (total_months inp).toNat + 1 := by omega
  rw [Nat.add_sub_cancel, map_range_get _ _ j hjn] at hb
  have hbj := Option.some.inj hb
  subst hbj
  constructor
  · rw [map_range_get _ _ _ hin]
    congr 1
  · rw [map_range_get _ _ _ hin]
    congr 1

theorem C1_witness :
    ((List.range ((total_months W1).toNat + 1)).map (savings W1)).get? 1 =
        some (if ((1 : ℕ) : ℤ) ≤ months_to_retirement W1
          then savings W1 0 * (1 + monthly_return W1.expected_return) + W1.monthly_contribution
          else savings W1 0 * (1 + monthly_return W1.expected_return) - W1.monthly_expense_retired) ∧
      ((List.range ((total_months W1).toNat + 1)).map (monthly_cashflow W1)).get? 1 =
        some (if ((1 : ℕ) : ℤ) ≤ months_to_retirement W1
          then W1.monthly_contribution else -W1.monthly_expense_retired) :=
  C1_recurrence W1 (by norm_num [W1]) (by norm_num [W1]) (by norm_num [W1]) 1
    le_rfl (by norm_num [total_months, W1]) _ _ (savings W1 0)
    (calc_eq W1 (by norm_num [total_months, W1]))
    (map_range_get _ _ 0 (Nat.succ_pos _))

theorem monthly_return_zero : monthly_return 0 = 0 := by
  simp [monthly_return]

theorem one_add_monthly_return (r : ℝ) :
    1 + monthly_return r = (1 + r) ^ ((1 : ℝ) / 12) := by
  simp [monthly_return]

theorem one_add_monthly_return_pos (r : ℝ) (hr : -1 < r) :
    0 < 1 + monthly_return r := by
  rw [one_add_monthly_return]
  exact Real.rpow_pos_of_pos (by linarith) _

theorem one_add_monthly_return_pow (r : ℝ) (hr : -1 < r) :
    (1 + monthly_return r) ^ (12 : ℕ) = 1 + r := by
  rw [one_add_monthly_return, ← Real.rpow_natCast ((1 + r) ^ ((1 : ℝ) / 12)) 12,
    ← Real.rpow_mul (by linarith : (0 : ℝ) ≤ 1 + r)]
  have h12 : (1 : ℝ) / 12 * (12 : ℕ) = 1 := by norm_num
  rw [h12, Real.rpow_one]

theorem savings_pure (inp : PlanInputs) (hc : inp.monthly_contribution = 0)
    (he : inp.monthly_expense_retired = 0) (i : ℕ) :
    savings inp i =
      inp.current_savings * (1 + monthly_return inp.expected_return) ^ i := by
  induction i with
  | zero => simp [savings]
  | succ j ih =>
      by_cases h : ((j : ℤ) + 1) ≤ months_to_retirement inp
      · simp only [savings, if_pos h, ih, hc]
        ring
      · simp only [savings, if_neg h, ih, he]
        ring

theorem monthly_cashflow_pure (inp : PlanInputs) (hc : inp.monthly_contribution = 0)
    (he : inp.monthly_expense_retired = 0) (i : ℕ) :
    monthly_cashflow inp i = 0 := by
  cases i with
  | zero => rfl
  | succ j =>
      by_cases h : ((j : ℤ) + 1) ≤ months_to_retirement inp <;>
        simp [monthly_cashflow, h, hc, he]

/-- Claim C2: the monthly rate is the compounding twelfth root, so that
applying it twelve times reproduces `1 + annualReturn`; in particular the
pure-compounding run from 1000 at 12 percent over one year ends at
`1000 * 1.12` (exactly, in the real-number model, hence within the stated
`1e-9` relative tolerance). -/
theorem C2_rate_derivation (r : ℝ) (hr : -1 < r) (bal cf : List ℝ)
    (hcalc : calculate_retirement_plan W2 = some (bal, cf)) :
    (1 + monthly_return r) ^ (12 : ℕ) = 1 + r ∧
      bal.get? 12 = some (1000 * 1.12) := by
  refine ⟨one_add_monthly_return_pow r hr, ?_⟩
  obtain ⟨htm, hbal, hcf⟩ := calc_some W2 hcalc
  subst hbal
  have hin : 12 < (total_months W2).toNat + 1 := by
    simp only [total_months, W2]
    omega
  have hc : W2.monthly_contribution = 0 := rfl
  have he : W2.monthly_expense_retired = 0 := rfl
  rw [map_range_get _ _ _ hin, savings_pure W2 hc he 12]
  have hre : W2.expected_return = 0.12 := rfl
  rw [hre, one_add_monthly_return_pow 0.12 (by norm_num)]
  norm_num [W2]

theorem C2_witness :
    (1 + monthly_return 0.12) ^ (12 : ℕ) = 1 + 0.12 ∧
      ((List.range ((total_months W2).toNat + 1)).map (savings W2)).get? 12 =
        some (1000 * 1.12) :=
  C2_rate_derivation 0.12 (by norm_num) _ _
    (calc_eq W2 (by norm_num [total_months, W2]))

theorem savings_linear (inp : PlanInputs) (hr : inp.expected_return = 0) (i : ℕ)
    (hi : (i : ℤ) ≤ months_to_retirement inp) :
    savings inp i = inp.current_savings + inp.monthly_contribution * i := by
  induction i with
  | zero => simp [savings]
  | succ j ih =>
      have hcond : ((j : ℤ) + 1) ≤ months_to_retirement inp := by
        push_cast at hi
        omega
      have hj : (j : ℤ) ≤ months_to_retirement inp := by omega
      simp only [savings, if_pos hcond, ih hj, hr, monthly_return_zero]
      push_cast
      ring

/-- Claim C8: with zero annual return the derived monthly rate is zero
and the balance evolves linearly; contributing 100 from 0 for 24
accumulation months ends at exactly 2400 (for any retirement expense,
which is never used when `yearsAfterRetirement = 0`). -/
theorem C8_zero_rate (e : ℝ) (bal cf : List ℝ)
    (hcalc : calculate_retirement_plan ⟨e, 0, 2, 0, 100, 0⟩ = some (bal, cf)) :
    monthly_return 0 = 0 ∧ bal.get? 24 = some 2400 := by
  refine ⟨monthly_return_zero, ?_⟩
  obtain ⟨htm, hbal, hcf⟩ := calc_some _ hcalc
  subst hbal
  have hin : 24 < (total_months ⟨e, 0, 2, 0, 100, 0⟩).toNat + 1 := by
    simp only [total_months]
    omega
  rw [map_range_get _ _ _ hin,
    savings_linear ⟨e, 0, 2, 0, 100, 0⟩ rfl 24 (by norm_num [months_to_retirement])]
  norm_num

theorem C8_witness :
    monthly_return 0 = 0 ∧
      ((List.range ((total_months ⟨0, 0, 2, 0, 100, 0⟩).toNat + 1)).map
          (savings ⟨0, 0, 2, 0, 100, 0⟩)).get? 24 = some 2400 :=
  C8_zero_rate 0 _ _
    (calc_eq ⟨0, 0, 2, 0, 100, 0⟩ (by norm_num [total_months]))

/-- Claim C10: with zero contribution and zero expense the balance has
the closed form `currentSavings * (1 + monthlyRate)^i` on every index of
the horizon, and the cash flow is identically zero. -/
theorem C10_closed_form (inp : PlanInputs)
    (hc : inp.monthly_contribution = 0) (he : inp.monthly_expense_retired = 0)
    (hytr : 0 ≤ inp.years_to_retirement) (hyar : 0 ≤ inp.years_after_retirement)
    (bal cf : List ℝ)
    (hcalc : calculate_retirement_plan inp = some (bal, cf))
    (i : ℕ) (hi : (i : ℤ) ≤ total_months inp) :
    bal.get? i = some (inp.current_savings *
        (1 + monthly_return inp.expected_return) ^ i) ∧
      cf.get? i = some 0 := by
  obtain ⟨htm, hbal, hcf⟩ := calc_some inp hcalc
  subst hbal hcf
  have hin : i < (total_months inp).toNat + 1 := by omega
  rw [map_range_get _ _ _ hin, map_range_get _ _ _ hin,
    savings_pure inp hc he i, monthly_cashflow_pure inp hc he i]
  exact ⟨rfl, rfl⟩

theorem C10_witness :
    ((List.range ((total_months W10).toNat + 1)).map (savings W10)).get? 24 =
        some (W10.current_savings * (1 + monthly_return W10.expected_return) ^ 24) ∧
      ((List.range ((total_months W10).toNat + 1)).map (monthly_cashflow W10)).get? 24 =
        some 0 :=
  C10_closed_form W10 rfl rfl (by norm_num [W10]) (by norm_num [W10]) _ _
    (calc_eq W10 (by norm_num [total_months, W10])) 24
    (by norm_num [total_months, W10])

/-- Claim C4 concerns input validation.  The source performs none: at
`yearsToRetirement = -1`, `yearsAfterRetirement = 30` the function
returns a complete pair of 349-entry sequences (every month treated as
decumulation) instead of rejecting the input. -/
theorem C4_no_validation :
    ∃ bal cf : List ℝ, calculate_retirement_plan W4 = some (bal, cf) ∧
      bal.length = 349 ∧ cf.length = 349 := by
  refine ⟨_, _, calc_eq W4 (by norm_num [total_months, W4]), ?_, ?_⟩ <;>
    simp only [List.length_map, List.length_range, total_months, W4] <;> omega

theorem monthly_cashflow_succ (inp : PlanInputs) (i : ℕ) (hi : 1 ≤ i) :
    monthly_cashflow inp i = if (i : ℤ) ≤ months_to_retirement inp
      then inp.monthly_contribution else -inp.monthly_expense_retired := by
  obtain ⟨j, rfl⟩ : ∃ j, i = j + 1 := ⟨i - 1, by omega⟩
  rfl

/-- Claim C5 as stated is false on the code: at the input with
`monthlyContribution = 100 > 0`, `monthlyExpenseRetired = 50 > 0` but
`yearsToRetirement = 0`, the cash-flow entry at index
`monthsToRetirement = 0` is the seeded 0, which is not positive. -/
theorem C5_counterexample :
    ¬ (∀ bal cf : List ℝ, calculate_retirement_plan W5 = some (bal, cf) →
        ∃ v w : ℝ,
          cf.get? (months_to_retirement W5).toNat = some v ∧ 0 < v ∧
            cf.get? ((months_to_retirement W5).toNat + 1) = some w ∧ w < 0) := by
  intro h
  obtain ⟨v, w, hv, hv0, hw, hw0⟩ :=
    h _ _ (calc_eq W5 (by norm_num [total_months, W5]))
  have hmtr : (months_to_retirement W5).toNat = 0 := by
    simp [months_to_retirement, W5]
  rw [hmtr, map_range_get _ _ 0 (Nat.succ_pos _)] at hv
  obtain rfl : monthly_cashflow W5 0 = v := Option.some.inj hv
  exact absurd hv0 (by simp [monthly_cashflow])

/-- Claim C5 amended: with `monthlyContribution > 0` and
`monthlyExpenseRetired > 0` and, in addition, at least one accumulation
year and at least one decumulation year (`yearsToRetirement ≥ 1` and
`yearsAfterRetirement ≥ 1`, without which index `monthsToRetirement` is
the seeded 0 entry or index `monthsToRetirement + 1` is out of range),
the cash flow is positive at the last accumulation month and negative at
the first decumulation month. -/
theorem C5_amended (inp : PlanInputs)
    (hc : 0 < inp.monthly_contribution) (he : 0 < inp.monthly_expense_retired)
    (hytr : 1 ≤ inp.years_to_retirement) (hyar : 1 ≤ inp.years_after_retirement)
    (bal cf : List ℝ)
    (hcalc : calculate_retirement_plan inp = some (bal, cf)) :
    ∃ v w : ℝ,
      cf.get? (months_to_retirement inp).toNat = some v ∧ 0 < v ∧
        cf.get? ((months_to_retirement inp).toNat + 1) = some w ∧ w < 0 := by
  obtain ⟨htm, hbal, hcf⟩ := calc_some inp hcalc
  subst hcf
  have h1 : months_to_retirement inp = inp.years_to_retirement * 12 := rfl
  have h2 : total_months inp =
      (inp.years_to_retirement + inp.years_after_retirement) * 12 := rfl
  refine ⟨inp.monthly_contribution, -inp.monthly_expense_retired, ?_, hc, ?_,
    by linarith⟩
  · rw [map_range_get _ _ _ (by omega)]
    rw [monthly_cashflow_succ inp _ (by omega), if_pos (by omega)]
  · rw [map_range_get _ _ _ (by omega)]
    rw [monthly_cashflow_succ inp _ (by omega), if_neg (by omega)]

theorem C5_witness :
    ∃ v w : ℝ,
      ((List.range ((total_months V5).toNat + 1)).map (monthly_cashflow V5)).get?
          (months_to_retirement V5).toNat = some v ∧ 0 < v ∧
        ((List.range ((total_months V5).toNat + 1)).map (monthly_cashflow V5)).get?
          ((months_to_retirement V5).toNat + 1) = some w ∧ w < 0 :=
  C5_amended V5 (by norm_num [V5]) (by norm_num [V5]) (by norm_num [V5])
    (by norm_num [V5]) _ _ (calc_eq V5 (by norm_num [total_months, V5]))

theorem savings_const (inp : PlanInputs) (hmtr : months_to_retirement inp ≤ 0)
    (he : inp.monthly_expense_retired = 0) (hr : inp.expected_return = 0) (i : ℕ) :
    savings inp i = inp.current_savings := by
  induction i with
  | zero => simp [savings]
  | succ j ih =>
      have hcond : ¬ ((j : ℤ) + 1) ≤ months_to_retirement inp := by omega
      simp only [savings, if_neg hcond, ih, hr, monthly_return_zero, he]
      ring

/-- Claim C6 as stated is false on the code: the inputs `W6` and `V6`
differ only in `monthlyContribution` (0 versus 100), but with
`yearsToRetirement = 0` no contribution is ever applied, so the final
balances of the two runs are equal, not strictly ordered. -/
theorem C6_counterexample :
    ¬ (∀ bal1 cf1 bal2 cf2 : List ℝ,
        calculate_retirement_plan W6 = some (bal1, cf1) →
        calculate_retirement_plan V6 = some (bal2, cf2) →
        ∃ v w : ℝ, bal1.get? (total_months W6).toNat = some v ∧
          bal2.get? (total_months V6).toNat = some w ∧ v < w) := by
  intro h
  obtain ⟨v, w, hv, hw, hvw⟩ :=
    h _ _ _ _ (calc_eq W6 (by norm_num [total_months, W6]))
      (calc_eq V6 (by norm_num [total_months, V6]))
  rw [map_range_get _ _ _ (Nat.lt_succ_self _)] at hv hw
  rw [savings_const W6 (by norm_num [months_to_retirement, W6]) rfl rfl _] at hv
  rw [savings_const V6 (by norm_num [months_to_retirement, V6]) rfl rfl _] at hw
  obtain rfl := Option.some.inj hv
  obtain rfl := Option.some.inj hw
  norm_num [W6, V6] at hvw

theorem savings_lt_of_contribution_lt (e : ℝ) (yar ytr : ℤ) (cs c1 c2 r : ℝ)
    (hr : -1 < r) (hc : c1 < c2) (hytr : 1 ≤ ytr) (i : ℕ) (hi : 1 ≤ i) :
    savings ⟨e, yar, ytr, cs, c1, r⟩ i < savings ⟨e, yar, ytr, cs, c2, r⟩ i := by
  have hg : 0 < 1 + monthly_return r := one_add_monthly_return_pos r hr
  induction i, hi using Nat.le_induction with
  | base =>
      rw [show (1 : ℕ) = 0 + 1 from rfl]
      have hcond : (((0 : ℕ) : ℤ) + 1) ≤ months_to_retirement ⟨e, yar, ytr, cs, c1, r⟩ := by
        simp only [months_to_retirement]
        omega
      have hcond2 : (((0 : ℕ) : ℤ) + 1) ≤ months_to_retirement ⟨e, yar, ytr, cs, c2, r⟩ := by
        simp only [months_to_retirement]
        omega
      simp only [savings, if_pos hcond, if_pos hcond2]
      nlinarith
  | succ j hj ih =>
      by_cases hcond : ((j : ℤ) + 1) ≤ months_to_retirement ⟨e, yar, ytr, cs, c1, r⟩
      · have hcond2 : ((j : ℤ) + 1) ≤ months_to_retirement ⟨e, yar, ytr, cs, c2, r⟩ :=
          hcond
        simp only [savings, if_pos hcond, if_pos hcond2]
        nlinarith [mul_lt_mul_of_pos_right ih hg]
      · have hcond2 : ¬ ((j : ℤ) + 1) ≤ months_to_retirement ⟨e, yar, ytr, cs, c2, r⟩ :=
          hcond
        simp only [savings, if_neg hcond, if_neg hcond2]
        nlinarith [mul_lt_mul_of_pos_right ih hg]

/-- Claim C6 amended: for a valid input with at least one accumulation
year (`yearsToRetirement ≥ 1`, without which the contribution never
enters the recurrence), increasing only `monthlyContribution` strictly
increases the final balance. -/
theorem C6_amended (e : ℝ) (yar ytr : ℤ) (cs c1 c2 r : ℝ)
    (hr : -1 < r) (hc : c1 < c2) (hytr : 1 ≤ ytr) (hyar : 0 ≤ yar)
    (bal1 cf1 bal2 cf2 : List ℝ)
    (h1 : calculate_retirement_plan ⟨e, yar, ytr, cs, c1, r⟩ = some (bal1, cf1))
    (h2 : calculate_retirement_plan ⟨e, yar, ytr, cs, c2, r⟩ = some (bal2, cf2)) :
    ∃ v w : ℝ,
      bal1.get? (total_months ⟨e, yar, ytr, cs, c1, r⟩).toNat = some v ∧
        bal2.get? (total_months ⟨e, yar, ytr, cs, c2, r⟩).toNat = some w ∧ v < w := by
  obtain ⟨htm1, hb1, _⟩ := calc_some _ h1
  obtain ⟨htm2, hb2, _⟩ := calc_some _ h2
  subst hb1 hb2
  refine ⟨_, _, map_range_get _ _ _ (Nat.lt_succ_self _),
    map_range_get _ _ _ (Nat.lt_succ_self _), ?_⟩
  apply savings_lt_of_contribution_lt e yar ytr cs c1 c2 r hr hc hytr
  have htm : total_months ⟨e, yar, ytr, cs, c1, r⟩ = (ytr + yar) * 12 := rfl
  omega

theorem C6_witness :
    ∃ v w : ℝ,
      ((List.range ((total_months W6w).toNat + 1)).map (savings W6w)).get?
          (total_months W6w).toNat = some v ∧
        ((List.range ((total_months V6w).toNat + 1)).map (savings V6w)).get?
          (total_months V6w).toNat = some w ∧ v < w :=
  C6_amended 0 1 1 0 0 100 0 (by norm_num) (by norm_num) (by norm_num)
    (by norm_num) _ _ _ _ (calc_eq W6w (by norm_num [total_months, W6w]))
    (calc_eq V6w (by norm_num [total_months, V6w]))
